import Mathlib

/-!
Shallow embedding of `plat/rpi/rpi4/rpi4_bl31_setup.c` (Raspberry Pi 4
BL31 platform layer of arm-trusted-firmware, jlinton fork).

Imperative functions are embedded as pure Lean functions from an
environment (the values the hardware registers and co-processor RPCs
return during one run) and a pre-state (the two memory-mapped PCC
mailbox regions) to a trace of observable events plus the post-state.
Machine integers are modelled as `Nat`; the one place where 32-bit
wrap-around is reachable (the `counter *= ClockRate` multiply in the
channel-0 path) carries an explicit `% 2^32`.
-/

namespace Rpi4

/-- The single secure interrupt line taken over by this platform layer
(`#define SECURE_TRIGGER 32`). -/
def SECURE_TRIGGER : Nat := 32

/-- `struct pcc_region_t`: 4-byte signature, 2-byte command, 2-byte status,
8-byte command space.  `ComSpace` is modelled as a list of bytes. -/
structure PccRegion where
  Signature : Nat
  Command : Nat
  Status : Nat
  ComSpace : List Nat
deriving Repr, DecidableEq

/-- The two fixed-address mailbox regions: channel 0 at `0x1f0000` and
channel 1 at `0x1f0080`. -/
structure MboxState where
  region0 : PccRegion
  region1 : PccRegion
deriving Repr, DecidableEq

/-- Observable events of one handler invocation: interrupt-controller
primitives, MMIO accesses, co-processor RPCs and log lines. -/
inductive Ev where
  | ack (irq : Nat)
  | getId (irq : Nat) (intr : Nat)
  | flush
  | mmioReadStatus (v : Nat)
  | mmioWriteStatus (v : Nat)
  | mmioReadCounter (v : Nat)
  | getClock (v : Nat)
  | getPwm (v : Nat)
  | setPwm (v : Nat)
  | setClock (v : Nat)
  | setPower (dev : Nat) (state : Nat) (wait : Nat)
  | logError
  | logInfo
  | eoi (irq : Nat)
deriving Repr, DecidableEq

/-- Values supplied by the outside world during one handler run: the
interrupt handle returned by `plat_ic_acknowledge_interrupt`, the id
decoded from it, the mailbox status register read at `0xFF8000c0`, the
performance counter read at `0xFE003004`, and the out-parameters the
`rpi4_vc_get_clock` / `rpi4_vc_get_pwm` RPCs write.  All model 32-bit
quantities. -/
structure MboxEnv where
  irq : Nat
  intr : Nat
  mboxVal : Nat
  counter : Nat
  clockRate : Nat
  pwmVal : Nat
deriving Repr, DecidableEq

/-- Result of one handler invocation: event trace, final mailbox
regions, and the C return value. -/
structure HandlerOut where
  events : List Ev
  state : MboxState
  ret : Nat
deriving Repr, DecidableEq

/-- `le32enc`: store a 32-bit value as 4 little-endian bytes. -/
def le32enc (v : Nat) : List Nat :=
  [v % 256, v / 256 % 256, v / 65536 % 256, v / 16777216 % 256]

/-- The idle/complete triple written to channel 0:
`Signature = 0x50434300, Command = 0, Status = 1` (ComSpace untouched). -/
def resetChan0 (r : PccRegion) : PccRegion :=
  { r with Signature := 0x50434300, Command := 0, Status := 1 }

/-- The idle/complete triple written to channel 1:
`Signature = 0x50434301, Command = 0, Status = 1` (ComSpace untouched). -/
def resetChan1 (r : PccRegion) : PccRegion :=
  { r with Signature := 0x50434301, Command := 0, Status := 1 }

/-- The `mbox_val & 0x10000000` block (source comment "region 1", the
region at `0x1f0000` whose signature is channel 0): on `Command == 0`
read the performance counter, fetch the clock rate, store the raw
counter little-endian in `ComSpace[0..3]` and
`(counter * (ClockRate / 100000000)) % 2^32 / 15` in `ComSpace[4..7]`;
on nonzero command only log an error; either way re-idle the region. -/
def mbChan0 (env : MboxEnv) (s : MboxState) : List Ev × MboxState :=
  if Nat.testBit env.mboxVal 28 then
    if s.region0.Command = 0 then
      let counter := env.counter
      let ClockRate := env.clockRate / 100000000
      let counter2 := counter * ClockRate % 4294967296
      let counter3 := counter2 / 15
      let r := { s.region0 with ComSpace := le32enc counter ++ le32enc counter3 }
      ([Ev.mmioReadCounter env.counter, Ev.getClock env.clockRate],
       { s with region0 := resetChan0 r })
    else
      ([Ev.logError], { s with region0 := resetChan0 s.region0 })
  else ([], s)

/-- The `mbox_val & 0x20000000` block (source comment "region 2", the
region at `0x1f0080` whose signature is channel 1): unconditionally
fetch the PWM value, log the mailbox contents, and re-idle the region. -/
def mbChan1 (env : MboxEnv) (s : MboxState) : List Ev × MboxState :=
  if Nat.testBit env.mboxVal 29 then
    ([Ev.getPwm env.pwmVal, Ev.logError], { s with region1 := resetChan1 s.region1 })
  else ([], s)

/-- The clamp applied on the bit-30-clear path:
`if (mbox_val > 2200) 2200 else if (mbox_val < 600) 600 else mbox_val`. -/
def mbClamp (v : Nat) : Nat :=
  if v > 2200 then 2200 else if v < 600 then 600 else v

/-- The `mbox_val & 0x40000000` branch: bit 30 set issues
`rpi4_vc_set_pwm(mbox_val & 0xFF)` and logs; bit 30 clear clamps the
status value to `[600, 2200]` and issues `rpi4_vc_set_clock` of the
clamped value times 1000000. -/
def mbFanClock (env : MboxEnv) : List Ev :=
  if Nat.testBit env.mboxVal 30 then
    [Ev.setPwm (env.mboxVal % 256), Ev.logInfo]
  else
    [Ev.setClock (mbClamp env.mboxVal * 1000000)]

/-- The unconditional trailing block of the secure-trigger path:
re-idle both channel regions. -/
def finalResetChans (s : MboxState) : MboxState :=
  { region0 := resetChan0 s.region0, region1 := resetChan1 s.region1 }

/-- `generic_mb_interrupt_handler`: acknowledge, decode the id, flush
the console; on the secure trigger read the status register and write
it back, run the channel-0, channel-1 and fan-or-clock blocks, re-idle
both regions; in every case signal end of interrupt with the
acknowledged handle and return 0. -/
def generic_mb_interrupt_handler (env : MboxEnv) (s : MboxState) : HandlerOut :=
  let pre := [Ev.ack env.irq, Ev.getId env.irq env.intr, Ev.flush]
  if env.intr = SECURE_TRIGGER then
    let statusEvs := [Ev.mmioReadStatus env.mboxVal, Ev.mmioWriteStatus env.mboxVal]
    let r1 := mbChan0 env s
    let r2 := mbChan1 env r1.2
    let evs3 := mbFanClock env
    ⟨pre ++ statusEvs ++ r1.1 ++ r2.1 ++ evs3 ++ [Ev.eoi env.irq],
     finalResetChans r2.2, 0⟩
  else
    ⟨pre ++ [Ev.eoi env.irq], s, 0⟩

/-- Count the events satisfying a predicate in a trace. -/
def countEv (p : Ev → Bool) (evs : List Ev) : Nat := evs.countP p

def isAck : Ev → Bool
  | Ev.ack _ => true
  | _ => false

def isEoi : Ev → Bool
  | Ev.eoi _ => true
  | _ => false

def isGetClock : Ev → Bool
  | Ev.getClock _ => true
  | _ => false

def isGetPwm : Ev → Bool
  | Ev.getPwm _ => true
  | _ => false

def isSetPwm : Ev → Bool
  | Ev.setPwm _ => true
  | _ => false

def isSetClock : Ev → Bool
  | Ev.setClock _ => true
  | _ => false

def isSetPower : Ev → Bool
  | Ev.setPower _ _ _ => true
  | _ => false

def isReadCounter : Ev → Bool
  | Ev.mmioReadCounter _ => true
  | _ => false

/-- A clock RPC is a co-processor get-clock or set-clock call. -/
def isClockRpc (e : Ev) : Bool := isGetClock e || isSetClock e

/-- Specification-side clamp to the inclusive range `[600, 2200]`. -/
def clampSpec (v : Nat) : Nat := max 600 (min v 2200)

theorem mbClamp_eq_clampSpec (v : Nat) : mbClamp v = clampSpec v := by
  unfold mbClamp clampSpec
  simp only [Nat.max_def, Nat.min_def]
  split_ifs <;> omega

theorem countEv_mbChan0_zero (p : Ev → Bool) (env : MboxEnv) (s : MboxState)
    (h1 : p Ev.logError = false)
    (h2 : ∀ v, p (Ev.mmioReadCounter v) = false)
    (h3 : ∀ v, p (Ev.getClock v) = false) :
    countEv p (mbChan0 env s).1 = 0 := by
  unfold mbChan0 countEv
  split <;> (try split) <;>
    simp [List.countP_cons, List.countP_nil, h1, h2, h3]

theorem countEv_mbChan1_zero (p : Ev → Bool) (env : MboxEnv) (s : MboxState)
    (h1 : ∀ v, p (Ev.getPwm v) = false)
    (h2 : p Ev.logError = false) :
    countEv p (mbChan1 env s).1 = 0 := by
  unfold mbChan1 countEv
  split <;> simp [List.countP_cons, List.countP_nil, h1, h2]

theorem countEv_mbFanClock_zero (p : Ev → Bool) (env : MboxEnv)
    (h1 : ∀ v, p (Ev.setPwm v) = false)
    (h2 : p Ev.logInfo = false)
    (h3 : ∀ v, p (Ev.setClock v) = false) :
    countEv p (mbFanClock env) = 0 := by
  unfold mbFanClock countEv
  split <;> simp [List.countP_cons, List.countP_nil, h1, h2, h3]

theorem countEv_append (p : Ev → Bool) (a b : List Ev) :
    countEv p (a ++ b) = countEv p a + countEv p b := by
  unfold countEv; exact List.countP_append p a b

/-- A concrete mailbox pre-state used by witness instantiations. -/
def mbS0 : MboxState := ⟨⟨0, 0, 0, [0, 0, 0, 0, 0, 0, 0, 0]⟩, ⟨0, 0, 0, [0, 0, 0, 0, 0, 0, 0, 0]⟩⟩

example :
    (generic_mb_interrupt_handler ⟨5, 32, 0x10000000, 0, 0, 0⟩
      ⟨⟨0, 1, 0, []⟩, ⟨0, 0, 0, []⟩⟩).events =
    [Ev.ack 5, Ev.getId 5 32, Ev.flush, Ev.mmioReadStatus 0x10000000,
     Ev.mmioWriteStatus 0x10000000, Ev.logError, Ev.setClock 2200000000,
     Ev.eoi 5] := by decide

example :
    (generic_mb_interrupt_handler ⟨5, 7, 0x10000000, 0, 0, 0⟩
      ⟨⟨0, 1, 0, []⟩, ⟨0, 0, 0, []⟩⟩).events =
    [Ev.ack 5, Ev.getId 5 7, Ev.flush, Ev.eoi 5] := by decide

theorem handler_events_secure (env : MboxEnv) (s : MboxState)
    (h : env.intr = SECURE_TRIGGER) :
    (generic_mb_interrupt_handler env s).events =
      [Ev.ack env.irq, Ev.getId env.irq env.intr, Ev.flush] ++
      [Ev.mmioReadStatus env.mboxVal, Ev.mmioWriteStatus env.mboxVal] ++
      (mbChan0 env s).1 ++ (mbChan1 env (mbChan0 env s).2).1 ++
      mbFanClock env ++ [Ev.eoi env.irq] := by
  simp [generic_mb_interrupt_handler, h]

theorem handler_events_other (env : MboxEnv) (s : MboxState)
    (h : ¬env.intr = SECURE_TRIGGER) :
    (generic_mb_interrupt_handler env s).events =
      [Ev.ack env.irq, Ev.getId env.irq env.intr, Ev.flush, Ev.eoi env.irq] := by
  simp [generic_mb_interrupt_handler, h]

/-- C9: every invocation of the mailbox interrupt handler, for any
interrupt identifier, performs exactly one acknowledge and exactly one
end-of-interrupt using the handle obtained from the acknowledge, and
returns 0; when the identifier is not the secure trigger the trace is
exactly acknowledge, id-decode, console flush, end-of-interrupt (so no
mailbox write, status-register access or co-processor RPC happens) and
the mailbox regions are untouched. -/
theorem handler_ack_eoi_once (env : MboxEnv) (s : MboxState) :
    countEv isAck (generic_mb_interrupt_handler env s).events = 1 ∧
    countEv isEoi (generic_mb_interrupt_handler env s).events = 1 ∧
    Ev.ack env.irq ∈ (generic_mb_interrupt_handler env s).events ∧
    Ev.eoi env.irq ∈ (generic_mb_interrupt_handler env s).events ∧
    (generic_mb_interrupt_handler env s).ret = 0 ∧
    (env.intr ≠ SECURE_TRIGGER →
      (generic_mb_interrupt_handler env s).events =
        [Ev.ack env.irq, Ev.getId env.irq env.intr, Ev.flush, Ev.eoi env.irq] ∧
      (generic_mb_interrupt_handler env s).state = s) := by
  by_cases h : env.intr = SECURE_TRIGGER
  · have he := handler_events_secure env s h
    have ha0 := countEv_mbChan0_zero isAck env s rfl (fun _ => rfl) (fun _ => rfl)
    have ha1 := countEv_mbChan1_zero isAck env (mbChan0 env s).2 (fun _ => rfl) rfl
    have ha2 := countEv_mbFanClock_zero isAck env (fun _ => rfl) rfl (fun _ => rfl)
    have he0 := countEv_mbChan0_zero isEoi env s rfl (fun _ => rfl) (fun _ => rfl)
    have he1 := countEv_mbChan1_zero isEoi env (mbChan0 env s).2 (fun _ => rfl) rfl
    have he2 := countEv_mbFanClock_zero isEoi env (fun _ => rfl) rfl (fun _ => rfl)
    refine ⟨?_, ?_, ?_, ?_, ?_, fun hn => absurd h hn⟩
    · rw [he]; simp only [countEv_append, ha0, ha1, ha2]
      simp [countEv, isAck]
    · rw [he]; simp only [countEv_append, he0, he1, he2]
      simp [countEv, isEoi]
    · rw [he]; simp
    · rw [he]; simp
    · simp [generic_mb_interrupt_handler, h]
  · have he := handler_events_other env s h
    refine ⟨?_, ?_, ?_, ?_, ?_, fun _ => ⟨he, ?_⟩⟩ <;>
      simp [he, countEv, isAck, isEoi, generic_mb_interrupt_handler, h]

/-- C9 witness: concrete instantiation at a non-secure identifier. -/
theorem handler_ack_eoi_once_witness :
    countEv isAck (generic_mb_interrupt_handler ⟨9, 7, 0, 0, 0, 0⟩ mbS0).events = 1 ∧
    countEv isEoi (generic_mb_interrupt_handler ⟨9, 7, 0, 0, 0, 0⟩ mbS0).events = 1 ∧
    Ev.ack 9 ∈ (generic_mb_interrupt_handler ⟨9, 7, 0, 0, 0, 0⟩ mbS0).events ∧
    Ev.eoi 9 ∈ (generic_mb_interrupt_handler ⟨9, 7, 0, 0, 0, 0⟩ mbS0).events ∧
    (generic_mb_interrupt_handler ⟨9, 7, 0, 0, 0, 0⟩ mbS0).ret = 0 ∧
    ((7 : Nat) ≠ SECURE_TRIGGER →
      (generic_mb_interrupt_handler ⟨9, 7, 0, 0, 0, 0⟩ mbS0).events =
        [Ev.ack 9, Ev.getId 9 7, Ev.flush, Ev.eoi 9] ∧
      (generic_mb_interrupt_handler ⟨9, 7, 0, 0, 0, 0⟩ mbS0).state = mbS0) :=
  handler_ack_eoi_once ⟨9, 7, 0, 0, 0, 0⟩ mbS0

/-- C3: on the secure trigger with status bit 30 clear, exactly one
clock-set RPC is issued and its argument is
`clamp(mbox_val, 600, 2200) * 1000000`. -/
theorem handler_setclock_clamped (env : MboxEnv) (s : MboxState)
    (h : env.intr = SECURE_TRIGGER)
    (h30 : Nat.testBit env.mboxVal 30 = false) :
    countEv isSetClock (generic_mb_interrupt_handler env s).events = 1 ∧
    Ev.setClock (clampSpec env.mboxVal * 1000000) ∈
      (generic_mb_interrupt_handler env s).events := by
  have he := handler_events_secure env s h
  have h0 := countEv_mbChan0_zero isSetClock env s rfl (fun _ => rfl) (fun _ => rfl)
  have h1 := countEv_mbChan1_zero isSetClock env (mbChan0 env s).2 (fun _ => rfl) rfl
  have hf : mbFanClock env = [Ev.setClock (clampSpec env.mboxVal * 1000000)] := by
    rw [mbFanClock, h30, ← mbClamp_eq_clampSpec]; rfl
  constructor
  · rw [he]; simp only [countEv_append, h0, h1, hf]
    simp [countEv, isSetClock]
  · rw [he, hf]; simp

/-- C3 witness: requested value 0 is clamped to 600, so the clock-set
RPC receives exactly 600000000. -/
theorem handler_setclock_clamped_witness :
    countEv isSetClock (generic_mb_interrupt_handler ⟨1, 32, 0, 0, 0, 0⟩ mbS0).events = 1 ∧
    Ev.setClock 600000000 ∈
      (generic_mb_interrupt_handler ⟨1, 32, 0, 0, 0, 0⟩ mbS0).events := by
  have h := handler_setclock_clamped ⟨1, 32, 0, 0, 0, 0⟩ mbS0 rfl (by decide)
  exact ⟨h.1, h.2⟩

/-- C5: on the secure trigger with status bit 30 set, exactly one
set-pwm RPC is issued and its argument is the low byte
`mbox_val & 0xFF`, untransformed. -/
theorem handler_setpwm_low_byte (env : MboxEnv) (s : MboxState)
    (h : env.intr = SECURE_TRIGGER)
    (h30 : Nat.testBit env.mboxVal 30 = true) :
    countEv isSetPwm (generic_mb_interrupt_handler env s).events = 1 ∧
    Ev.setPwm (env.mboxVal % 256) ∈
      (generic_mb_interrupt_handler env s).events := by
  have he := handler_events_secure env s h
  have h0 := countEv_mbChan0_zero isSetPwm env s rfl (fun _ => rfl) (fun _ => rfl)
  have h1 := countEv_mbChan1_zero isSetPwm env (mbChan0 env s).2 (fun _ => rfl) rfl
  have hf : mbFanClock env = [Ev.setPwm (env.mboxVal % 256), Ev.logInfo] := by
    rw [mbFanClock, h30]; rfl
  constructor
  · rw [he]; simp only [countEv_append, h0, h1, hf]
    simp [countEv, isSetPwm]
  · rw [he, hf]; simp

/-- C5 witness: status `0x400000AB` yields a set-pwm RPC with `0xAB`. -/
theorem handler_setpwm_low_byte_witness :
    countEv isSetPwm (generic_mb_interrupt_handler ⟨1, 32, 0x400000AB, 0, 0, 0⟩ mbS0).events = 1 ∧
    Ev.setPwm 0xAB ∈
      (generic_mb_interrupt_handler ⟨1, 32, 0x400000AB, 0, 0, 0⟩ mbS0).events := by
  have h := handler_setpwm_low_byte ⟨1, 32, 0x400000AB, 0, 0, 0⟩ mbS0 rfl (by decide)
  exact ⟨h.1, h.2⟩

/-- C4: after every secure-trigger invocation, whatever status bits were
set, both mailbox regions end idle/complete: channel 0 signature
`0x50434300`, channel 1 signature `0x50434301`, both with command 0 and
status 1. -/
theorem handler_regions_idle (env : MboxEnv) (s : MboxState)
    (h : env.intr = SECURE_TRIGGER) :
    ((generic_mb_interrupt_handler env s).state.region0.Signature = 0x50434300 ∧
     (generic_mb_interrupt_handler env s).state.region0.Command = 0 ∧
     (generic_mb_interrupt_handler env s).state.region0.Status = 1) ∧
    ((generic_mb_interrupt_handler env s).state.region1.Signature = 0x50434301 ∧
     (generic_mb_interrupt_handler env s).state.region1.Command = 0 ∧
     (generic_mb_interrupt_handler env s).state.region1.Status = 1) := by
  simp [generic_mb_interrupt_handler, h, finalResetChans, resetChan0, resetChan1]

/-- C4 witness: status `0x30000000` (both region bits set) at a dirty
pre-state still ends with both regions idle. -/
theorem handler_regions_idle_witness :
    ((generic_mb_interrupt_handler ⟨1, 32, 0x30000000, 0, 0, 0⟩
        ⟨⟨7, 5, 9, []⟩, ⟨8, 6, 2, []⟩⟩).state.region0.Signature = 0x50434300 ∧
     (generic_mb_interrupt_handler ⟨1, 32, 0x30000000, 0, 0, 0⟩
        ⟨⟨7, 5, 9, []⟩, ⟨8, 6, 2, []⟩⟩).state.region0.Command = 0 ∧
     (generic_mb_interrupt_handler ⟨1, 32, 0x30000000, 0, 0, 0⟩
        ⟨⟨7, 5, 9, []⟩, ⟨8, 6, 2, []⟩⟩).state.region0.Status = 1) ∧
    ((generic_mb_interrupt_handler ⟨1, 32, 0x30000000, 0, 0, 0⟩
        ⟨⟨7, 5, 9, []⟩, ⟨8, 6, 2, []⟩⟩).state.region1.Signature = 0x50434301 ∧
     (generic_mb_interrupt_handler ⟨1, 32, 0x30000000, 0, 0, 0⟩
        ⟨⟨7, 5, 9, []⟩, ⟨8, 6, 2, []⟩⟩).state.region1.Command = 0 ∧
     (generic_mb_interrupt_handler ⟨1, 32, 0x30000000, 0, 0, 0⟩
        ⟨⟨7, 5, 9, []⟩, ⟨8, 6, 2, []⟩⟩).state.region1.Status = 1) :=
  handler_regions_idle ⟨1, 32, 0x30000000, 0, 0, 0⟩ ⟨⟨7, 5, 9, []⟩, ⟨8, 6, 2, []⟩⟩ rfl

theorem mbChan1_region0 (env : MboxEnv) (s : MboxState) :
    ((mbChan1 env s).2).region0 = s.region0 := by
  unfold mbChan1; split <;> rfl

theorem handler_state_region0_comspace (env : MboxEnv) (s : MboxState)
    (h : env.intr = SECURE_TRIGGER) :
    (generic_mb_interrupt_handler env s).state.region0.ComSpace =
      (mbChan0 env s).2.region0.ComSpace := by
  simp [generic_mb_interrupt_handler, h, finalResetChans, resetChan0,
    mbChan1_region0]

/-- A concrete environment refuting C1: secure trigger, status register
reading exactly `0x10000000`. -/
def envBit28 : MboxEnv := ⟨5, 32, 0x10000000, 0, 0, 0⟩

/-- C1 counterexample: with the status register reading exactly
`0x10000000` (only bit 28 set) the handler issues no get-pwm RPC at all
and does issue a clock-set RPC (for 2200000000, since bit 30 is clear
the value is clamped), contradicting the claimed "exactly one get-pwm
RPC" and "no clock RPCs". -/
theorem handler_bit28_claim_false :
    countEv isGetPwm (generic_mb_interrupt_handler envBit28 mbS0).events = 0 ∧
    countEv isSetClock (generic_mb_interrupt_handler envBit28 mbS0).events = 1 ∧
    Ev.setClock 2200000000 ∈ (generic_mb_interrupt_handler envBit28 mbS0).events ∧
    ¬(countEv isGetPwm (generic_mb_interrupt_handler envBit28 mbS0).events = 1 ∧
      countEv isSetClock (generic_mb_interrupt_handler envBit28 mbS0).events = 0) := by
  decide

/-- C1 (amended): for a secure-trigger invocation whose status register
reads exactly `0x10000000` (only bit 28 set) and whose channel-0 command
is 0, the handler issues exactly one get-clock RPC and exactly one
set-clock RPC (with the clamped value 2200000000), no get-pwm, set-pwm
or power RPCs, writes the idle triple to both channel regions, and
performs exactly one acknowledge/end-of-interrupt pair. -/
theorem handler_bit28_only_behavior (env : MboxEnv) (s : MboxState)
    (h : env.intr = SECURE_TRIGGER) (hm : env.mboxVal = 0x10000000)
    (hc : s.region0.Command = 0) :
    countEv isGetClock (generic_mb_interrupt_handler env s).events = 1 ∧
    countEv isSetClock (generic_mb_interrupt_handler env s).events = 1 ∧
    Ev.setClock 2200000000 ∈ (generic_mb_interrupt_handler env s).events ∧
    countEv isGetPwm (generic_mb_interrupt_handler env s).events = 0 ∧
    countEv isSetPwm (generic_mb_interrupt_handler env s).events = 0 ∧
    countEv isSetPower (generic_mb_interrupt_handler env s).events = 0 ∧
    countEv isAck (generic_mb_interrupt_handler env s).events = 1 ∧
    countEv isEoi (generic_mb_interrupt_handler env s).events = 1 ∧
    ((generic_mb_interrupt_handler env s).state.region0.Signature = 0x50434300 ∧
     (generic_mb_interrupt_handler env s).state.region0.Command = 0 ∧
     (generic_mb_interrupt_handler env s).state.region0.Status = 1) ∧
    ((generic_mb_interrupt_handler env s).state.region1.Signature = 0x50434301 ∧
     (generic_mb_interrupt_handler env s).state.region1.Command = 0 ∧
     (generic_mb_interrupt_handler env s).state.region1.Status = 1) := by
  have h28 : Nat.testBit env.mboxVal 28 = true := by rw [hm]; decide
  have h29 : Nat.testBit env.mboxVal 29 = false := by rw [hm]; decide
  have h30 : Nat.testBit env.mboxVal 30 = false := by rw [hm]; decide
  have hch0 : (mbChan0 env s).1 =
      [Ev.mmioReadCounter env.counter, Ev.getClock env.clockRate] := by
    unfold mbChan0; rw [h28, hc]; simp
  have hch1 : (mbChan1 env (mbChan0 env s).2).1 = [] := by
    unfold mbChan1; rw [h29]; simp
  have hfc : mbFanClock env = [Ev.setClock 2200000000] := by
    unfold mbFanClock; rw [h30, hm]; simp [mbClamp]
  have he := handler_events_secure env s h
  rw [he, hch0, hch1, hfc]
  refine ⟨?_, ?_, ?_, ?_, ?_, ?_, ?_, ?_, ?_, ?_⟩ <;>
    first
      | simp [countEv, isGetClock, isSetClock, isGetPwm, isSetPwm, isSetPower,
          isAck, isEoi]
      | simp [generic_mb_interrupt_handler, h, finalResetChans, resetChan0,
          resetChan1]

/-- C1 witness: the amended statement instantiated at a concrete run. -/
theorem handler_bit28_only_behavior_witness :
    countEv isGetClock (generic_mb_interrupt_handler envBit28 mbS0).events = 1 ∧
    countEv isSetClock (generic_mb_interrupt_handler envBit28 mbS0).events = 1 ∧
    Ev.setClock 2200000000 ∈ (generic_mb_interrupt_handler envBit28 mbS0).events ∧
    countEv isGetPwm (generic_mb_interrupt_handler envBit28 mbS0).events = 0 ∧
    countEv isSetPwm (generic_mb_interrupt_handler envBit28 mbS0).events = 0 ∧
    countEv isSetPower (generic_mb_interrupt_handler envBit28 mbS0).events = 0 ∧
    countEv isAck (generic_mb_interrupt_handler envBit28 mbS0).events = 1 ∧
    countEv isEoi (generic_mb_interrupt_handler envBit28 mbS0).events = 1 ∧
    ((generic_mb_interrupt_handler envBit28 mbS0).state.region0.Signature = 0x50434300 ∧
     (generic_mb_interrupt_handler envBit28 mbS0).state.region0.Command = 0 ∧
     (generic_mb_interrupt_handler envBit28 mbS0).state.region0.Status = 1) ∧
    ((generic_mb_interrupt_handler envBit28 mbS0).state.region1.Signature = 0x50434301 ∧
     (generic_mb_interrupt_handler envBit28 mbS0).state.region1.Command = 0 ∧
     (generic_mb_interrupt_handler envBit28 mbS0).state.region1.Status = 1) :=
  handler_bit28_only_behavior envBit28 mbS0 rfl rfl rfl

/-- A concrete environment refuting C2: secure trigger, status register
reading exactly `0x08000000` (only bit 27 set). -/
def envBit27 : MboxEnv := ⟨5, 32, 0x08000000, 0, 0, 0⟩

/-- C2 counterexample: with only status bit 27 set and channel-0 command
0 the handler neither reads the performance counter nor fetches the
clock rate, and channel 0's payload is left unchanged — the channel-0
telemetry path is keyed to bit 28, not bit 27. -/
theorem handler_bit27_claim_false :
    countEv isReadCounter (generic_mb_interrupt_handler envBit27 mbS0).events = 0 ∧
    countEv isGetClock (generic_mb_interrupt_handler envBit27 mbS0).events = 0 ∧
    (generic_mb_interrupt_handler envBit27 mbS0).state.region0.ComSpace =
      mbS0.region0.ComSpace ∧
    ¬countEv isReadCounter (generic_mb_interrupt_handler envBit27 mbS0).events = 1 := by
  decide

/-- C2 (amended): for a secure-trigger invocation with status bit 28
set: if the channel-0 command is 0 the handler reads the performance
counter once, fetches the clock rate once, and leaves channel 0's
payload holding the raw counter little-endian in bytes 0..3 and
`(counter * (clockRate / 100000000)) mod 2^32 / 15` little-endian in
bytes 4..7 (the multiply wraps at 32 bits); if the command is nonzero it
logs an error and performs no counter read, no get-clock, and no payload
write. -/
theorem handler_chan0_counter (env : MboxEnv) (s : MboxState)
    (h : env.intr = SECURE_TRIGGER)
    (h28 : Nat.testBit env.mboxVal 28 = true) :
    (s.region0.Command = 0 →
      countEv isReadCounter (generic_mb_interrupt_handler env s).events = 1 ∧
      Ev.mmioReadCounter env.counter ∈ (generic_mb_interrupt_handler env s).events ∧
      countEv isGetClock (generic_mb_interrupt_handler env s).events = 1 ∧
      Ev.getClock env.clockRate ∈ (generic_mb_interrupt_handler env s).events ∧
      (generic_mb_interrupt_handler env s).state.region0.ComSpace =
        le32enc env.counter ++
        le32enc (env.counter * (env.clockRate / 100000000) % 4294967296 / 15)) ∧
    (s.region0.Command ≠ 0 →
      countEv isReadCounter (generic_mb_interrupt_handler env s).events = 0 ∧
      countEv isGetClock (generic_mb_interrupt_handler env s).events = 0 ∧
      (generic_mb_interrupt_handler env s).state.region0.ComSpace =
        s.region0.ComSpace ∧
      Ev.logError ∈ (generic_mb_interrupt_handler env s).events) := by
  have he := handler_events_secure env s h
  have hcs := handler_state_region0_comspace env s h
  constructor
  · intro hc
    have hch0 : (mbChan0 env s).1 =
        [Ev.mmioReadCounter env.counter, Ev.getClock env.clockRate] := by
      unfold mbChan0; rw [h28, hc]; simp
    have hst : (mbChan0 env s).2.region0.ComSpace =
        le32enc env.counter ++
        le32enc (env.counter * (env.clockRate / 100000000) % 4294967296 / 15) := by
      unfold mbChan0; rw [h28, hc]; simp [resetChan0]
    have hr1 := countEv_mbChan1_zero isReadCounter env (mbChan0 env s).2
      (fun _ => rfl) rfl
    have hr2 := countEv_mbFanClock_zero isReadCounter env
      (fun _ => rfl) rfl (fun _ => rfl)
    have hg1 := countEv_mbChan1_zero isGetClock env (mbChan0 env s).2
      (fun _ => rfl) rfl
    have hg2 := countEv_mbFanClock_zero isGetClock env
      (fun _ => rfl) rfl (fun _ => rfl)
    refine ⟨?_, ?_, ?_, ?_, ?_⟩
    · rw [he, hch0]; simp only [countEv_append, hr1, hr2]
      simp [countEv, isReadCounter]
    · rw [he, hch0]; simp
    · rw [he, hch0]; simp only [countEv_append, hg1, hg2]
      simp [countEv, isGetClock]
    · rw [he, hch0]; simp
    · rw [hcs, hst]
  · intro hc
    have hch0 : (mbChan0 env s).1 = [Ev.logError] := by
      unfold mbChan0; rw [h28]; simp [hc]
    have hst : (mbChan0 env s).2.region0.ComSpace = s.region0.ComSpace := by
      unfold mbChan0; rw [h28]; simp [hc, resetChan0]
    have hr1 := countEv_mbChan1_zero isReadCounter env (mbChan0 env s).2
      (fun _ => rfl) rfl
    have hr2 := countEv_mbFanClock_zero isReadCounter env
      (fun _ => rfl) rfl (fun _ => rfl)
    have hg1 := countEv_mbChan1_zero isGetClock env (mbChan0 env s).2
      (fun _ => rfl) rfl
    have hg2 := countEv_mbFanClock_zero isGetClock env
      (fun _ => rfl) rfl (fun _ => rfl)
    refine ⟨?_, ?_, ?_, ?_⟩
    · rw [he, hch0]; simp only [countEv_append, hr1, hr2]
      simp [countEv, isReadCounter]
    · rw [he, hch0]; simp only [countEv_append, hg1, hg2]
      simp [countEv, isGetClock]
    · rw [hcs, hst]
    · rw [he, hch0]; simp

/-- A concrete environment exercising the amended channel-0 telemetry
path: counter 7, clock rate 1500000000 (so the scale factor is 15 and
the delivered value is again 7). -/
def envChan0 : MboxEnv := ⟨2, 32, 0x10000000, 7, 1500000000, 0⟩

/-- C2 witness: the amended statement instantiated at a concrete run. -/
theorem handler_chan0_counter_witness :
    (mbS0.region0.Command = 0 →
      countEv isReadCounter (generic_mb_interrupt_handler envChan0 mbS0).events = 1 ∧
      Ev.mmioReadCounter 7 ∈ (generic_mb_interrupt_handler envChan0 mbS0).events ∧
      countEv isGetClock (generic_mb_interrupt_handler envChan0 mbS0).events = 1 ∧
      Ev.getClock 1500000000 ∈ (generic_mb_interrupt_handler envChan0 mbS0).events ∧
      (generic_mb_interrupt_handler envChan0 mbS0).state.region0.ComSpace =
        le32enc 7 ++ le32enc (7 * (1500000000 / 100000000) % 4294967296 / 15)) ∧
    (mbS0.region0.Command ≠ 0 →
      countEv isReadCounter (generic_mb_interrupt_handler envChan0 mbS0).events = 0 ∧
      countEv isGetClock (generic_mb_interrupt_handler envChan0 mbS0).events = 0 ∧
      (generic_mb_interrupt_handler envChan0 mbS0).state.region0.ComSpace =
        mbS0.region0.ComSpace ∧
      Ev.logError ∈ (generic_mb_interrupt_handler envChan0 mbS0).events) :=
  handler_chan0_counter envChan0 mbS0 rfl (by decide)

/-! ## Device-tree patcher (`rpi4_prepare_dtb`) -/

/-- Results the external libfdt / fixup calls return during one run of
`rpi4_prepare_dtb`, plus the DTB address and the packed blob size. -/
structure DtbEnv where
  dtbAddr : Nat
  headerRet : Int
  openRet : Int
  psciNodeRet : Int
  psciMethodsRet : Int
  reservedRet : Int
  gicOffs : Int
  chosenOffs : Int
  packRet : Int
  blobSize : Nat
deriving Repr, DecidableEq

/-- Observable steps of one run of the patcher: each external call with
its arguments and result, and the log lines. -/
inductive DtbStep where
  | checkHeader (ret : Int)
  | openInto (maxSize : Nat) (ret : Int)
  | addPsciNode (ret : Int)
  | addPsciCpuEnableMethods (ret : Int)
  | addReservedMemory (name : String) (base : Nat) (size : Nat) (ret : Int)
  | findNodeByCompat (compat : String) (offs : Int)
  | setProp (offs : Int) (name : String) (val : List Nat) (len : Nat)
  | findPath (path : String) (offs : Int)
  | setPropString (offs : Int) (name : String) (val : String)
  | pack (ret : Int)
  | cleanDcache (base : Nat) (size : Nat)
  | logErr
  | logWarn
  | logInfo
deriving Repr, DecidableEq

/-- `cpu_to_fdt32` followed by storing the value: the 4 big-endian bytes
of a 32-bit value, as laid out in memory for the property payload. -/
def fdt32Bytes (v : Nat) : List Nat :=
  [v / 16777216 % 256, v / 65536 % 256, v / 256 % 256, v % 256]

/-- The 12-byte `interrupts` property payload `{1, 9, 0x0f04}` built in
`gic_int_prop[]`. -/
def gicIntProp : List Nat := fdt32Bytes 1 ++ fdt32Bytes 9 ++ fdt32Bytes 0x0f04

/-- `rpi4_prepare_dtb`: validate the header (silent return on failure),
open the blob in place with max size `0x100000` (log and return on
failure), add the PSCI node (log and return on failure), add the PSCI
cpu enable methods (log and return on failure), add the `atf@0`
reserved-memory node for `[0, 0x80000)` (log a warning on failure and
continue), overwrite the `interrupts` property of the `arm,gic-400`
node with `gicIntProp`, set `/chosen` `stdout-path` to `serial0`, pack
(log on failure and continue), flush the cache over the blob, and log
completion. -/
def rpi4_prepare_dtb (env : DtbEnv) : List DtbStep :=
  [DtbStep.checkHeader env.headerRet] ++
  (if env.headerRet ≠ 0 then [] else
    [DtbStep.openInto 0x100000 env.openRet] ++
    (if env.openRet < 0 then [DtbStep.logErr] else
      [DtbStep.addPsciNode env.psciNodeRet] ++
      (if env.psciNodeRet ≠ 0 then [DtbStep.logErr] else
        [DtbStep.addPsciCpuEnableMethods env.psciMethodsRet] ++
        (if env.psciMethodsRet ≠ 0 then [DtbStep.logErr] else
          [DtbStep.addReservedMemory "atf@0" 0 0x80000 env.reservedRet] ++
          (if env.reservedRet ≠ 0 then [DtbStep.logWarn] else []) ++
          [DtbStep.findNodeByCompat "arm,gic-400" env.gicOffs,
           DtbStep.setProp env.gicOffs "interrupts" gicIntProp 12,
           DtbStep.findPath "/chosen" env.chosenOffs,
           DtbStep.setPropString env.chosenOffs "stdout-path" "serial0",
           DtbStep.pack env.packRet] ++
          (if env.packRet < 0 then [DtbStep.logErr] else []) ++
          [DtbStep.cleanDcache env.dtbAddr env.blobSize, DtbStep.logInfo]))))

/-- C6: the first four patch steps are fatal to the function — a failed
header check, open, PSCI-node insertion or cpu-enable-methods
installation ends the run with no later step — while a failed
reserved-memory insertion is only logged as a warning and the
interrupts-property write, stdout-path write, pack and cache flush still
execute. -/
theorem prepare_dtb_error_propagation (env : DtbEnv) :
    (env.headerRet ≠ 0 →
      rpi4_prepare_dtb env = [DtbStep.checkHeader env.headerRet]) ∧
    (env.headerRet = 0 → env.openRet < 0 →
      rpi4_prepare_dtb env =
        [DtbStep.checkHeader env.headerRet,
         DtbStep.openInto 0x100000 env.openRet, DtbStep.logErr]) ∧
    (env.headerRet = 0 → ¬env.openRet < 0 → env.psciNodeRet ≠ 0 →
      rpi4_prepare_dtb env =
        [DtbStep.checkHeader env.headerRet,
         DtbStep.openInto 0x100000 env.openRet,
         DtbStep.addPsciNode env.psciNodeRet, DtbStep.logErr]) ∧
    (env.headerRet = 0 → ¬env.openRet < 0 → env.psciNodeRet = 0 →
        env.psciMethodsRet ≠ 0 →
      rpi4_prepare_dtb env =
        [DtbStep.checkHeader env.headerRet,
         DtbStep.openInto 0x100000 env.openRet,
         DtbStep.addPsciNode env.psciNodeRet,
         DtbStep.addPsciCpuEnableMethods env.psciMethodsRet, DtbStep.logErr]) ∧
    (env.headerRet = 0 → ¬env.openRet < 0 → env.psciNodeRet = 0 →
        env.psciMethodsRet = 0 → env.reservedRet ≠ 0 →
      DtbStep.logWarn ∈ rpi4_prepare_dtb env ∧
      DtbStep.setProp env.gicOffs "interrupts" gicIntProp 12 ∈ rpi4_prepare_dtb env ∧
      DtbStep.setPropString env.chosenOffs "stdout-path" "serial0" ∈ rpi4_prepare_dtb env ∧
      DtbStep.pack env.packRet ∈ rpi4_prepare_dtb env ∧
      DtbStep.cleanDcache env.dtbAddr env.blobSize ∈ rpi4_prepare_dtb env) := by
  refine ⟨?_, ?_, ?_, ?_, ?_⟩
  · intro h1; simp [rpi4_prepare_dtb, h1]
  · intro h1 h2; simp [rpi4_prepare_dtb, h1, h2]
  · intro h1 h2 h3; simp [rpi4_prepare_dtb, h1, h2, h3]
  · intro h1 h2 h3 h4; simp [rpi4_prepare_dtb, h1, h2, h3, h4]
  · intro h1 h2 h3 h4 h5
    refine ⟨?_, ?_, ?_, ?_, ?_⟩ <;> simp [rpi4_prepare_dtb, h1, h2, h3, h4, h5]

/-- C6 witness: a run where the reserved-memory step fails but
everything else succeeds. -/
theorem prepare_dtb_error_propagation_witness :
    DtbStep.logWarn ∈ rpi4_prepare_dtb ⟨4096, 0, 1, 0, 0, 1, 40, 60, 0, 5000⟩ ∧
    DtbStep.setProp 40 "interrupts" gicIntProp 12 ∈
      rpi4_prepare_dtb ⟨4096, 0, 1, 0, 0, 1, 40, 60, 0, 5000⟩ ∧
    DtbStep.setPropString 60 "stdout-path" "serial0" ∈
      rpi4_prepare_dtb ⟨4096, 0, 1, 0, 0, 1, 40, 60, 0, 5000⟩ ∧
    DtbStep.pack 0 ∈ rpi4_prepare_dtb ⟨4096, 0, 1, 0, 0, 1, 40, 60, 0, 5000⟩ ∧
    DtbStep.cleanDcache 4096 5000 ∈
      rpi4_prepare_dtb ⟨4096, 0, 1, 0, 0, 1, 40, 60, 0, 5000⟩ :=
  (prepare_dtb_error_propagation ⟨4096, 0, 1, 0, 0, 1, 40, 60, 0, 5000⟩).2.2.2.2
    rfl (by decide) rfl rfl (by decide)

/-- C7: on every run that gets past the PSCI steps, the patcher writes
the `interrupts` property of the `arm,gic-400` node with exactly the
12-byte big-endian fdt32 encoding of `{1, 9, 0x0f04}`, i.e. the bytes
`00 00 00 01 00 00 00 09 00 00 0f 04`, and sets `/chosen`
`stdout-path` to the string `serial0`. -/
theorem prepare_dtb_interrupts_and_stdout (env : DtbEnv)
    (h1 : env.headerRet = 0) (h2 : ¬env.openRet < 0)
    (h3 : env.psciNodeRet = 0) (h4 : env.psciMethodsRet = 0) :
    DtbStep.setProp env.gicOffs "interrupts" gicIntProp 12 ∈ rpi4_prepare_dtb env ∧
    DtbStep.setPropString env.chosenOffs "stdout-path" "serial0" ∈ rpi4_prepare_dtb env ∧
    gicIntProp = fdt32Bytes 1 ++ fdt32Bytes 9 ++ fdt32Bytes 0x0f04 ∧
    gicIntProp = [0, 0, 0, 1, 0, 0, 0, 9, 0, 0, 0x0f, 0x04] ∧
    gicIntProp.length = 12 := by
  refine ⟨?_, ?_, rfl, by decide, by decide⟩ <;>
    simp [rpi4_prepare_dtb, h1, h2, h3, h4]

/-- C7 witness: a fully successful run. -/
theorem prepare_dtb_interrupts_and_stdout_witness :
    DtbStep.setProp 40 "interrupts" gicIntProp 12 ∈
      rpi4_prepare_dtb ⟨4096, 0, 1, 0, 0, 0, 40, 60, 0, 5000⟩ ∧
    DtbStep.setPropString 60 "stdout-path" "serial0" ∈
      rpi4_prepare_dtb ⟨4096, 0, 1, 0, 0, 0, 40, 60, 0, 5000⟩ ∧
    gicIntProp = fdt32Bytes 1 ++ fdt32Bytes 9 ++ fdt32Bytes 0x0f04 ∧
    gicIntProp = [0, 0, 0, 1, 0, 0, 0, 9, 0, 0, 0x0f, 0x04] ∧
    gicIntProp.length = 12 :=
  prepare_dtb_interrupts_and_stdout ⟨4096, 0, 1, 0, 0, 0, 40, 60, 0, 5000⟩
    rfl (by decide) rfl rfl

/-! ## Architecture setup (`bl31_plat_arch_setup`) -/

/-- Memory type of a mapping request: `MT_MEMORY` (normal cacheable) or
`MT_NON_CACHEABLE`. -/
inductive MemType where
  | normalMemory
  | nonCacheable
deriving Repr, DecidableEq

/-- The attribute set of one `mmap_add_region` request: memory type,
read-write flag, and whether the region is non-secure (`MT_NS`) or
secure (`MT_SECURE`). -/
structure MmapAttr where
  mtype : MemType
  rw : Bool
  nonSecure : Bool
deriving Repr, DecidableEq

/-- Steps of `bl31_plat_arch_setup`: mapping-table registrations, the
delegated code/rodata/coherent-region setup, and enabling the MMU. -/
inductive ArchStep where
  | mmapAdd (base : Nat) (va : Nat) (size : Nat) (attr : MmapAttr)
  | setupPageTables
  | enableMmu
deriving Repr, DecidableEq

/-- The boot handshake words read by the arch setup: the stub magic and
the 32-bit DTB pointer left at the base of memory by the GPU firmware. -/
structure ArchEnv where
  stub_magic : Nat
  dtb_ptr32 : Nat
deriving Repr, DecidableEq

/-- `dtb_region &= ~0x1fffff`: round down to a 2 MiB boundary. -/
def align2M (a : Nat) : Nat := a / 0x200000 * 0x200000

/-- `bl31_plat_arch_setup`: when the stub magic is 0 map a 4 MiB normal
cacheable read-write non-secure window at the DTB pointer rounded down
to 2 MiB; always map the first 4096 bytes as non-cacheable read-write
secure; delegate the code/rodata regions; enable the MMU. -/
def bl31_plat_arch_setup (env : ArchEnv) : List ArchStep :=
  (if env.stub_magic = 0 then
    [ArchStep.mmapAdd (align2M env.dtb_ptr32) (align2M env.dtb_ptr32)
      (4 * 1048576) ⟨MemType.normalMemory, true, true⟩]
  else []) ++
  [ArchStep.mmapAdd 0 0 4096 ⟨MemType.nonCacheable, true, false⟩,
   ArchStep.setupPageTables,
   ArchStep.enableMmu]

/-- C8: when the stub magic is 0 the arch setup registers a 4 MiB
normal cacheable read-write non-secure region based at the DTB pointer
rounded down to 2 MiB (and registers no such region otherwise), and in
both cases registers `[0, 4096)` as non-cacheable read-write secure,
with every registration preceding the MMU enable. -/
theorem arch_setup_mappings (env : ArchEnv) :
    (env.stub_magic = 0 →
      bl31_plat_arch_setup env =
        [ArchStep.mmapAdd (align2M env.dtb_ptr32) (align2M env.dtb_ptr32)
           (4 * 1048576) ⟨MemType.normalMemory, true, true⟩,
         ArchStep.mmapAdd 0 0 4096 ⟨MemType.nonCacheable, true, false⟩,
         ArchStep.setupPageTables,
         ArchStep.enableMmu] ∧
      align2M env.dtb_ptr32 % 0x200000 = 0) ∧
    (env.stub_magic ≠ 0 →
      bl31_plat_arch_setup env =
        [ArchStep.mmapAdd 0 0 4096 ⟨MemType.nonCacheable, true, false⟩,
         ArchStep.setupPageTables,
         ArchStep.enableMmu]) := by
  constructor
  · intro h
    refine ⟨by simp [bl31_plat_arch_setup, h], ?_⟩
    unfold align2M
    exact Nat.mul_mod_left (env.dtb_ptr32 / 0x200000) 0x200000
  · intro h
    simp [bl31_plat_arch_setup, h]

/-- C8 witness: with stub magic 0 and a DTB pointer of `0x2eff300`, the
window is based at `0x2e00000`. -/
theorem arch_setup_mappings_witness :
    ((0 : Nat) = 0 →
      bl31_plat_arch_setup ⟨0, 0x2eff300⟩ =
        [ArchStep.mmapAdd (align2M 0x2eff300) (align2M 0x2eff300)
           (4 * 1048576) ⟨MemType.normalMemory, true, true⟩,
         ArchStep.mmapAdd 0 0 4096 ⟨MemType.nonCacheable, true, false⟩,
         ArchStep.setupPageTables,
         ArchStep.enableMmu] ∧
      align2M 0x2eff300 % 0x200000 = 0) ∧
    ((0 : Nat) ≠ 0 →
      bl31_plat_arch_setup ⟨0, 0x2eff300⟩ =
        [ArchStep.mmapAdd 0 0 4096 ⟨MemType.nonCacheable, true, false⟩,
         ArchStep.setupPageTables,
         ArchStep.enableMmu]) :=
  arch_setup_mappings ⟨0, 0x2eff300⟩

/-! ## Next-image entry-point query (`bl31_plat_get_next_image_ep_info`) -/

/-- `entry_point_info_t`, reduced to the fields this module touches:
the target program counter, the saved processor state, the security
attribute, and the entry argument registers. -/
structure EntryPointInfo where
  pc : Nat
  spsr : Nat
  nonSecureAttr : Bool
  args : List Nat
deriving Repr, DecidableEq

/-- Security-state encoding of the framework: `SECURE` is 0. -/
def SECURE : Nat := 0

/-- Security-state encoding of the framework: `NON_SECURE` is 1. -/
def NON_SECURE : Nat := 1

/-- `sec_state_is_valid`: the two valid security states. -/
def sec_state_is_valid (t : Nat) : Bool := t = SECURE || t = NON_SECURE

/-- The static `bl32_image_ep_info`: BL32 is not supported, the module
never writes this descriptor, so it keeps its zero initialisation. -/
def bl32_image_ep_info : EntryPointInfo := ⟨0, 0, false, []⟩

/-- `bl31_plat_get_next_image_ep_info`: select the BL33 descriptor for
`NON_SECURE` and the BL32 descriptor otherwise; return it unless its
program counter is 0, in which case return `none` (NULL). -/
def bl31_plat_get_next_image_ep_info (t : Nat)
    (bl32 bl33 : EntryPointInfo) : Option EntryPointInfo :=
  let next_image_info := if t = NON_SECURE then bl33 else bl32
  if next_image_info.pc ≠ 0 then some next_image_info else none

/-- `plat_get_ns_image_entrypoint` (non-preloaded configuration): the
kernel entry word when the GPU cleared the stub magic, else the default
address `0x80000` with a warning. -/
def plat_get_ns_image_entrypoint (stub_magic kernel_entry32 : Nat) : Nat :=
  if stub_magic = 0 then kernel_entry32 else 0x80000

/-- C10: for every valid security state the query returns NULL exactly
when the selected descriptor's program counter is 0; with the module's
never-populated BL32 descriptor every secure query returns NULL, and the
non-secure query returns the populated BL33 descriptor whenever its
entry point is nonzero. -/
theorem next_image_ep_info_spec (t : Nat) (bl33 : EntryPointInfo)
    (_hv : sec_state_is_valid t = true) :
    (bl31_plat_get_next_image_ep_info t bl32_image_ep_info bl33 = none ↔
      (if t = NON_SECURE then bl33 else bl32_image_ep_info).pc = 0) ∧
    bl31_plat_get_next_image_ep_info SECURE bl32_image_ep_info bl33 = none ∧
    (bl33.pc ≠ 0 →
      bl31_plat_get_next_image_ep_info NON_SECURE bl32_image_ep_info bl33 =
        some bl33) := by
  refine ⟨?_, ?_, ?_⟩
  · unfold bl31_plat_get_next_image_ep_info
    split <;> rename_i hpc <;> simp [hpc]
  · simp [bl31_plat_get_next_image_ep_info, SECURE, NON_SECURE, bl32_image_ep_info]
  · intro hpc
    simp [bl31_plat_get_next_image_ep_info, hpc]

/-- C10 witness: a BL33 descriptor populated with the fallback entry
point `0x80000` (nonzero), at the non-secure security state. -/
theorem next_image_ep_info_spec_witness :
    (bl31_plat_get_next_image_ep_info NON_SECURE bl32_image_ep_info
        ⟨plat_get_ns_image_entrypoint 1 0, 965, true, []⟩ = none ↔
      (if NON_SECURE = NON_SECURE then
        (⟨plat_get_ns_image_entrypoint 1 0, 965, true, []⟩ : EntryPointInfo)
       else bl32_image_ep_info).pc = 0) ∧
    bl31_plat_get_next_image_ep_info SECURE bl32_image_ep_info
      ⟨plat_get_ns_image_entrypoint 1 0, 965, true, []⟩ = none ∧
    ((⟨plat_get_ns_image_entrypoint 1 0, 965, true, []⟩ : EntryPointInfo).pc ≠ 0 →
      bl31_plat_get_next_image_ep_info NON_SECURE bl32_image_ep_info
        ⟨plat_get_ns_image_entrypoint 1 0, 965, true, []⟩ =
        some ⟨plat_get_ns_image_entrypoint 1 0, 965, true, []⟩) :=
  next_image_ep_info_spec NON_SECURE
    ⟨plat_get_ns_image_entrypoint 1 0, 965, true, []⟩ (by decide)

end Rpi4
